import Mathlib

/-!
Verification development for the libuv watcher layer
(src/gevent/libuv/watcher.py): handle close protocol, io multiplexing,
event dispatch, timer clamping and restart, the native error wrapper,
async send, the ref property and the simulated-watcher constructor.
Machine integers are modelled as Nat/Int, Python floats for timer
durations as rationals, and callbacks as opaque numeric identifiers.
-/

namespace Gevent

/-- State of a native libuv handle as observed by `watcher._watcher_ffi_close`:
whether the `type` field was ever set by a successful init, whether
`uv_is_closing` reports it as closing, and whether the `data` pointer has been
nulled. -/
structure UvHandle where
  typeSet : Bool
  closing : Bool
  dataNull : Bool
deriving DecidableEq

/-- `watcher._watcher_ffi_close`: invokes the native `uv_close` only when the
handle's type field is set and it is not already closing (a `uv_close` on an
uninitialized handle is fatal); always nulls the data pointer. Returns the new
handle state together with the number of `uv_close` invocations made. A handle
passed to `uv_close` reports closing from then on. -/
def _watcher_ffi_close (h : UvHandle) : UvHandle × Nat :=
  if h.typeSet = true ∧ h.closing = false then
    ({ h with closing := true, dataNull := true }, 1)
  else
    ({ h with dataNull := true }, 0)

/-- State of the `async_` watcher's native handle: whether it is closing, and
how many `uv_async_send` calls have been issued on it. -/
structure AsyncWatcher where
  closing : Bool
  sends : Nat
deriving DecidableEq

/-- The message of the exception raised by `async_.send` on a closing handle. -/
def closingHandleMsg : String := "Closing handle"

/-- `async_.send`: raises when the native handle is closing, otherwise invokes
the native `uv_async_send`. The first component is the raised message, if any. -/
def send (s : AsyncWatcher) : Option String × AsyncWatcher :=
  if s.closing then (some closingHandleMsg, s)
  else (none, { s with sends := s.sends + 1 })

/-- An argument passed through `libuv_error_wrapper`: either a `watcher`
instance (stripped before the native call) or an opaque value. -/
inductive UvArg where
  | watcherArg
  | intArg (n : ℤ)
deriving DecidableEq

/-- The leading-watcher stripping done by `libuv_error_wrapper`'s `wrap`:
`if args and isinstance(args[0], watcher): args = args[1:]`. -/
def stripWatcherArg : List UvArg → List UvArg
  | UvArg.watcherArg :: rest => rest
  | other => other

/-- Literal text pieces of the `UVFuncallError` message built by the wrapper. -/
def spaceSep : String := " "

/-- Literal `" Args: "` piece of the `UVFuncallError` message. -/
def argsTag : String := " Args: "

/-- Literal `" KWARGS: "` piece of the `UVFuncallError` message. -/
def kwargsTag : String := " KWARGS: "

/-- `libuv_error_wrapper.__getattr__`'s `wrap`: strips a leading watcher
argument, calls the native function (`none` models a void return), and raises
`UVFuncallError` when the result is negative, with a message made of the
native error name, the native error message and the failing call's arguments.
`uv_err_name`, `uv_strerror` and `repr` are abstract parameters. -/
def libuv_error_wrap (errName errMsg : ℤ → String) (reprOf : List UvArg → String)
    (kwargsRepr : String) (f : List UvArg → Option ℤ) (args : List UvArg) :
    Except String (Option ℤ) :=
  let args := stripWatcherArg args
  match f args with
  | none => Except.ok none
  | some res =>
      if res < 0 then
        Except.error (errName res ++ spaceSep ++ errMsg res ++ argsTag ++
          reprOf args ++ kwargsTag ++ kwargsRepr)
      else Except.ok (some res)

/-- Effects performed by `_SimulatedWithAsyncMixin.__init__`, in order. -/
inductive SimEvent where
  | createAsync
  | initRest
  | closeAsync
deriving DecidableEq

/-- Message standing for the exception propagated out of a failing
`_SimulatedWithAsyncMixin.__init__`. -/
def simInitExcMsg : String := "exception"

/-- `_SimulatedWithAsyncMixin.__init__`: creates the owned async watcher
first; if the remainder of initialization raises, closes that async watcher
and re-raises. Returns the ordered effect trace together with the propagated
exception, if any. -/
def _SimulatedWithAsyncMixin_init (restRaises : Bool) : List SimEvent × Option String :=
  if restRaises then ([SimEvent.createAsync, SimEvent.closeAsync], some simInitExcMsg)
  else ([SimEvent.createAsync, SimEvent.initRest], none)

/-- One logical sub-watcher of an `io` watcher (`io._multiplexwatcher`):
its event mask, its callback (`none` when stopped; callbacks are opaque
numeric identifiers), the `pass_events` flag and the stored arguments. -/
structure MultiplexWatcher where
  events : Nat
  callback : Option Nat
  pass_events : Bool
  args : List Int
deriving DecidableEq

/-- The `io` watcher: file descriptor, stored event mask `_events`, the mask
armed on the native poll handle (`none` while the native handle is not
started), the registered multiplex sub-watchers, and whether the watcher has
been closed. -/
structure IoWatcher where
  _fd : Nat
  _events : Nat
  armed : Option Nat
  _multiplex_watchers : List MultiplexWatcher
  closed : Bool
deriving DecidableEq

/-- The mask accumulation loop of `io._calc_and_update_events`:
`events = 0; for watcher in self._multiplex_watchers: events |= watcher.events`. -/
def unionMasks (l : List MultiplexWatcher) : Nat :=
  l.foldl (fun acc w => acc ||| w.events) 0

/-- `io._set_events`: no-op when the mask is unchanged; otherwise stores the
new mask and, when the watcher is active (native poll handle started),
re-arms the native handle with the new mask via `uv_poll_start`. -/
def _set_events (s : IoWatcher) (events : Nat) : IoWatcher :=
  if events = s._events then s
  else
    let s := { s with _events := events }
    match s.armed with
    | some _ => { s with armed := some events }
    | none => s

/-- `io._calc_and_update_events`: recomputes the union of all multiplex
sub-watcher masks and applies it through `_set_events`. -/
def _calc_and_update_events (s : IoWatcher) : IoWatcher :=
  _set_events s (unionMasks s._multiplex_watchers)

/-- `io.multiplex`: registers a new multiplex sub-watcher (initially stopped)
and recomputes the armed mask. After `io.close` the watcher list has been
deleted and the call would raise, modelled as a no-op. -/
def multiplex (s : IoWatcher) (events : Nat) : IoWatcher :=
  if s.closed then s
  else _calc_and_update_events
    { s with _multiplex_watchers := s._multiplex_watchers ++
        [{ events := events, callback := none, pass_events := false, args := [] }] }

/-- `io._io_start`, reaching the base `watcher.start`. Modelled from the spec:
the base watcher class is not part of this repository; its `start` arms the
native handle (here through `io._watcher_ffi_start`, which passes
`self._events` to `uv_poll_start`) and the watcher becomes active. -/
def _io_start (s : IoWatcher) : IoWatcher :=
  { s with armed := some s._events }

/-- Base `watcher.stop` as used by the `io` watcher. Modelled from the spec:
stop disarms the native handle (`uv_poll_stop`); the handle stays allocated. -/
def io_stop (s : IoWatcher) : IoWatcher :=
  { s with armed := none }

/-- `io._io_maybe_stop`: stops the io watcher when no multiplex sub-watcher
has a callback, i.e. none is started. -/
def _io_maybe_stop (s : IoWatcher) : IoWatcher :=
  if s._multiplex_watchers.all (fun w => w.callback = none) then io_stop s else s

/-- `io._multiplexwatcher.start` (the sub-watcher at index `i`): stores the
callback, arguments and `pass_events`, and starts the owning io watcher if it
is not active. -/
def multiplexwatcher_start (s : IoWatcher) (i : Nat) (cb : Nat) (cbArgs : List Int)
    (pe : Bool) : IoWatcher :=
  if s.closed then s
  else match s._multiplex_watchers.get? i with
    | none => s
    | some w =>
        let w := { w with callback := some cb, args := cbArgs, pass_events := pe }
        let s1 := { s with _multiplex_watchers := s._multiplex_watchers.set i w }
        match s.armed with
        | some _ => s1
        | none => _io_start s1

/-- `io._multiplexwatcher.stop` (the sub-watcher at index `i`): clears the
callback, arguments and `pass_events`, then lets the owner stop itself when
nothing remains started. -/
def multiplexwatcher_stop (s : IoWatcher) (i : Nat) : IoWatcher :=
  if s.closed then s
  else match s._multiplex_watchers.get? i with
    | none => s
    | some w =>
        let w := { w with callback := none, args := [], pass_events := false }
        _io_maybe_stop { s with _multiplex_watchers := s._multiplex_watchers.set i w }

/-- `io.close`: the base `watcher.close` (modelled from the spec: stop plus a
synchronous close request on the native handle, terminal `closed` state)
followed by `del self._multiplex_watchers`. -/
def io_close (s : IoWatcher) : IoWatcher :=
  { s with armed := none, closed := true, _multiplex_watchers := [] }

/-- `io._multiplex_closed`, entered from `io._multiplexwatcher.close` for the
sub-watcher at index `i`: removes it from the list; when it was the last one,
stops the io watcher and synchronously closes it, otherwise recomputes the
armed event mask. -/
def _multiplex_closed (s : IoWatcher) (i : Nat) : IoWatcher :=
  if s.closed then s
  else if i < s._multiplex_watchers.length then
    let rest := s._multiplex_watchers.eraseIdx i
    let s1 := { s with _multiplex_watchers := rest }
    if rest.isEmpty then io_close (io_stop s1)
    else _calc_and_update_events s1
  else s

/-- `io.__init__`: stores the descriptor and initial mask with an empty
multiplex list; no native handle is created yet. -/
def io_init (fd events : Nat) : IoWatcher :=
  { _fd := fd, _events := events, armed := none,
    _multiplex_watchers := [], closed := false }

/-- One mutation of an io watcher through its multiplex interface. -/
inductive IoOp where
  | multiplexOp (events : Nat)
  | startOp (i : Nat) (cb : Nat) (cbArgs : List Int) (pe : Bool)
  | stopOp (i : Nat)
  | closeOp (i : Nat)
deriving DecidableEq

/-- Applies one multiplex-interface operation to an io watcher. -/
def ioApply (s : IoWatcher) : IoOp → IoWatcher
  | IoOp.multiplexOp ev => multiplex s ev
  | IoOp.startOp i cb cbArgs pe => multiplexwatcher_start s i cb cbArgs pe
  | IoOp.stopOp i => multiplexwatcher_stop s i
  | IoOp.closeOp i => _multiplex_closed s i

/-- Runs a sequence of multiplex-interface operations. -/
def ioRun (s : IoWatcher) (ops : List IoOp) : IoWatcher :=
  ops.foldl ioApply s

/-- A recorded callback invocation made by `io._io_callback`. -/
structure Invocation where
  cb : Nat
  cbArgs : List Int
deriving DecidableEq

/-- The `send_event` test of `io._io_callback`:
`send_event = (events & watcher.events) or events < 0`. Python integers are
unbounded two's-complement, so `&` is `Int.land`. -/
def send_event (events : Int) (mask : Nat) : Bool :=
  decide (Int.land events (mask : Int) ≠ 0) || decide (events < 0)

/-- `io._io_callback`: walks the multiplex sub-watchers in order, skips
stopped ones, and invokes the callback of each one selected by `send_event`,
prepending the events bitmask exactly when `pass_events` is set. Returns the
ordered list of callback invocations. -/
def _io_callback (events : Int) : List MultiplexWatcher → List Invocation
  | [] => []
  | w :: rest =>
      match w.callback with
      | none => _io_callback events rest
      | some cb =>
          if send_event events w.events then
            (if w.pass_events then { cb := cb, cbArgs := events :: w.args }
             else { cb := cb, cbArgs := w.args }) :: _io_callback events rest
          else _io_callback events rest

/-- A native timer call issued by `timer._watcher_ffi_start`. -/
inductive TimerNativeCall where
  | uv_timer_start (afterMs repeatMs : ℤ)
  | uv_timer_again
deriving DecidableEq

/-- The `timer` watcher: durations (Python floats modelled as rationals), the
`_again` flag, lazy-initialization and active state, stored callback and
arguments, the number of resolution warnings emitted, and the native timer
calls issued so far. -/
structure TimerWatcher where
  _after : ℚ
  _repeat : ℚ
  _again : Bool
  initialized : Bool
  active : Bool
  callback : Option Nat
  args : List Int
  warnings : Nat
  calls : List TimerNativeCall
deriving DecidableEq

/-- Python `int()` truncation toward zero on a rational. -/
def pyInt (x : ℚ) : ℤ :=
  if 0 ≤ x then ⌊x⌋ else -⌊-x⌋

/-- Construction of a timer watcher with the given `after`/`repeat` durations;
the native handle is not initialized yet. -/
def timer_mk (after rep : ℚ) : TimerWatcher :=
  { _after := after, _repeat := rep, _again := false, initialized := false,
    active := false, callback := none, args := [], warnings := 0, calls := [] }

/-- One clamp of `timer._watcher_ffi_init`: a non-zero duration strictly
below 0.001 s becomes exactly 0.001 s with one warning-level diagnostic
(`warnings.warn`, which does not raise); any other value passes through. -/
def clampDuration (x : ℚ) : ℚ × Nat :=
  if x ≠ 0 ∧ x < 1/1000 then (1/1000, 1) else (x, 0)

/-- `timer._watcher_ffi_init`: initializes the native timer handle, then
applies the sub-millisecond clamp to `_after` and to `_repeat` in turn,
accumulating the warnings each clamp emits. -/
def timer_watcher_ffi_init (s : TimerWatcher) : TimerWatcher :=
  { s with initialized := true,
           _after := (clampDuration s._after).1,
           _repeat := (clampDuration s._repeat).1,
           warnings := s.warnings + (clampDuration s._after).2 + (clampDuration s._repeat).2 }

/-- `timer._watcher_ffi_start`: `uv_timer_again` when the `_again` flag is
set, otherwise `uv_timer_start` with millisecond-truncated durations. -/
def timer_watcher_ffi_start (s : TimerWatcher) : TimerWatcher :=
  if s._again then { s with calls := s.calls ++ [TimerNativeCall.uv_timer_again] }
  else { s with calls := s.calls ++
    [TimerNativeCall.uv_timer_start (pyInt (s._after * 1000)) (pyInt (s._repeat * 1000))] }

/-- Base `watcher.start` for the timer. Modelled from the spec: the base
watcher class is not part of this repository; its `start` lazily initializes
the native handle on first use, stores the callback and arguments, arms via
`_watcher_ffi_start`, and marks the watcher active. -/
def timer_start (s : TimerWatcher) (cb : Nat) (cbArgs : List Int) : TimerWatcher :=
  let s := if s.initialized then s else timer_watcher_ffi_init s
  let s := { s with callback := some cb, args := cbArgs }
  let s := timer_watcher_ffi_start s
  { s with active := true }

/-- `timer.again`: behaves as `start` when the watcher was never started;
otherwise sets the `_again` flag around a `start` call (restored in a
`finally`), which routes `_watcher_ffi_start` to `uv_timer_again`. -/
def timer_again (s : TimerWatcher) (cb : Nat) (cbArgs : List Int) : TimerWatcher :=
  if s.active = false then timer_start s cb cbArgs
  else
    let s := timer_start { s with _again := true } cb cbArgs
    { s with _again := false }

/-- The native handle of a generic watcher as seen by the `ref` property:
only its `uv_has_ref` flag matters here. -/
structure NativeRefHandle where
  hasRefFlag : Bool
deriving DecidableEq

/-- A generic watcher as seen by the `ref` property: its native handle
(`none` while never initialized) and whether it has been started. -/
structure RefWatcher where
  _watcher : Option NativeRefHandle
  started : Bool
deriving DecidableEq

/-- `watcher._watcher_ffi_ref` under the `only_if_watcher` guard. Modelled
from the spec for the guard, which lives in the base class outside this
repository: a no-op while no native handle exists, else `uv_ref`. -/
def _watcher_ffi_ref (s : RefWatcher) : RefWatcher :=
  match s._watcher with
  | none => s
  | some h => { s with _watcher := some { h with hasRefFlag := true } }

/-- `watcher._watcher_ffi_unref` under the `only_if_watcher` guard: a no-op
while no native handle exists, else `uv_unref`. -/
def _watcher_ffi_unref (s : RefWatcher) : RefWatcher :=
  match s._watcher with
  | none => s
  | some h => { s with _watcher := some { h with hasRefFlag := false } }

/-- `watcher._get_ref`: `None` while no native handle exists, else the
boolean `uv_has_ref` state. -/
def _get_ref (s : RefWatcher) : Option Bool :=
  match s._watcher with
  | none => none
  | some h => some h.hasRefFlag

/-- `watcher._set_ref`: routes to `_watcher_ffi_ref` or `_watcher_ffi_unref`. -/
def _set_ref (s : RefWatcher) (value : Bool) : RefWatcher :=
  if value then _watcher_ffi_ref s else _watcher_ffi_unref s

/-- Base `watcher.start` for a generic watcher, as far as the `ref` state is
concerned. Modelled from the spec: on first start the native handle is lazily
allocated and initialized fresh (reffed by default), and the watcher becomes
active. -/
def ref_watcher_start (s : RefWatcher) : RefWatcher :=
  match s._watcher with
  | none => { _watcher := some { hasRefFlag := true }, started := true }
  | some h => { _watcher := some h, started := true }

/-- The invariant tying an io watcher's stored and armed masks to its
registered multiplex sub-watchers: while any sub-watcher is registered the
stored mask is their union, and whenever the native handle is armed its mask
is that union. -/
def ioInv (s : IoWatcher) : Prop :=
  (s._multiplex_watchers ≠ [] → s._events = unionMasks s._multiplex_watchers) ∧
  (∀ m, s.armed = some m →
    m = unionMasks s._multiplex_watchers ∧ s._multiplex_watchers ≠ [])

/-- Folding the mask union from any accumulator factors through `unionMasks`. -/
lemma unionMasks_foldl (l : List MultiplexWatcher) (a : Nat) :
    l.foldl (fun acc w => acc ||| w.events) a = a ||| unionMasks l := by
  induction l generalizing a with
  | nil => simp [unionMasks]
  | cons w ws ih =>
      simp only [unionMasks, List.foldl_cons] at *
      rw [ih (a ||| w.events), ih (0 ||| w.events), Nat.zero_or, Nat.lor_assoc]

/-- `unionMasks` unfolds on a cons cell. -/
lemma unionMasks_cons (w : MultiplexWatcher) (l : List MultiplexWatcher) :
    unionMasks (w :: l) = w.events ||| unionMasks l := by
  simp only [unionMasks, List.foldl_cons]
  rw [unionMasks_foldl l (0 ||| w.events), Nat.zero_or]
  rfl

/-- Replacing an element by one with the same mask leaves the union unchanged. -/
lemma unionMasks_set (l : List MultiplexWatcher) (i : Nat) (w w' : MultiplexWatcher)
    (hg : l.get? i = some w) (he : w'.events = w.events) :
    unionMasks (l.set i w') = unionMasks l := by
  induction l generalizing i with
  | nil => simp at hg
  | cons x xs ih =>
      cases i with
      | zero =>
          simp only [List.get?_cons_zero, Option.some.injEq] at hg
          subst hg
          simp [List.set, unionMasks_cons, he]
      | succ n =>
          simp only [List.get?_cons_succ] at hg
          simp [List.set, unionMasks_cons, ih n hg]

/-- `_calc_and_update_events` establishes the io invariant whenever the armed
mask agreed with the stored mask and some sub-watcher is registered. -/
lemma ioInv_calc (s : IoWatcher)
    (harm : ∀ m, s.armed = some m → m = s._events)
    (hne : s._multiplex_watchers ≠ []) :
    ioInv (_calc_and_update_events s) := by
  unfold _calc_and_update_events _set_events
  by_cases hu : unionMasks s._multiplex_watchers = s._events
  · rw [if_pos hu]
    exact ⟨fun _ => hu.symm, fun m hm => ⟨(harm m hm).trans hu.symm, hne⟩⟩
  · rw [if_neg hu]
    cases ha : s.armed with
    | none => simp only [ha]; exact ⟨fun _ => rfl, by simp⟩
    | some a =>
        simp only [ha]
        exact ⟨fun _ => rfl, fun m hm => ⟨by injection hm with h; exact h.symm, hne⟩⟩

/-- `multiplex` preserves the io invariant. -/
lemma ioInv_multiplex (s : IoWatcher) (hs : ioInv s) (ev : Nat) :
    ioInv (multiplex s ev) := by
  unfold multiplex
  by_cases hc : s.closed = true
  · rw [if_pos hc]; exact hs
  · rw [if_neg hc]
    apply ioInv_calc
    · intro m hm
      obtain ⟨me, hne⟩ := hs.2 m hm
      exact me.trans (hs.1 hne).symm
    · simp

/-- A valid index means the sub-watcher list is nonempty. -/
lemma mws_ne_nil_of_get? (l : List MultiplexWatcher) (i : Nat) (w : MultiplexWatcher)
    (hg : l.get? i = some w) : l ≠ [] := by
  cases l with
  | nil => simp at hg
  | cons x xs => simp

/-- Replacing a registered sub-watcher by one with the same mask preserves the
io invariant. -/
lemma ioInv_set (s : IoWatcher) (hs : ioInv s) (i : Nat) (w w' : MultiplexWatcher)
    (hg : s._multiplex_watchers.get? i = some w) (he : w'.events = w.events) :
    ioInv { s with _multiplex_watchers := s._multiplex_watchers.set i w' } := by
  have hset := unionMasks_set _ i w w' hg he
  have hne := mws_ne_nil_of_get? _ i w hg
  have hne' : s._multiplex_watchers.set i w' ≠ [] := by
    intro hnil
    have hlen := congrArg List.length hnil
    simp at hlen
    exact hne hlen
  constructor
  · intro _
    exact (hs.1 hne).trans hset.symm
  · intro m hm
    obtain ⟨me, _⟩ := hs.2 m hm
    exact ⟨me.trans hset.symm, hne'⟩

/-- `_io_maybe_stop` preserves the io invariant. -/
lemma ioInv_maybe_stop (s : IoWatcher) (hs : ioInv s) : ioInv (_io_maybe_stop s) := by
  unfold _io_maybe_stop
  split
  · refine ⟨fun h => hs.1 h, fun m hm => ?_⟩
    simp [io_stop] at hm
  · exact hs

/-- `_multiplexwatcher.start` preserves the io invariant. -/
lemma ioInv_multiplexwatcher_start (s : IoWatcher) (hs : ioInv s) (i cb : Nat)
    (cbArgs : List Int) (pe : Bool) :
    ioInv (multiplexwatcher_start s i cb cbArgs pe) := by
  unfold multiplexwatcher_start
  by_cases hc : s.closed = true
  · rw [if_pos hc]; exact hs
  · rw [if_neg hc]
    cases hg : s._multiplex_watchers.get? i with
    | none => exact hs
    | some w =>
        have hinv := ioInv_set s hs i w
          { w with callback := some cb, args := cbArgs, pass_events := pe } hg rfl
        cases ha : s.armed with
        | some a => rw [ha] at hinv; exact hinv
        | none =>
            refine ⟨fun h => hinv.1 h, fun m hm => ?_⟩
            have hm' : m = s._events := by
              have : (some s._events : Option Nat) = some m := hm
              injection this with h
              exact h.symm
            have hne := mws_ne_nil_of_get? _ i w hg
            have hne' : s._multiplex_watchers.set i
                { w with callback := some cb, args := cbArgs, pass_events := pe } ≠ [] := by
              intro hnil
              have hlen := congrArg List.length hnil
              simp at hlen
              exact hne hlen
            have hset := unionMasks_set _ i w
              { w with callback := some cb, args := cbArgs, pass_events := pe } hg rfl
            exact ⟨hm' ▸ (hs.1 hne).trans hset.symm, hne'⟩

/-- `_multiplexwatcher.stop` preserves the io invariant. -/
lemma ioInv_multiplexwatcher_stop (s : IoWatcher) (hs : ioInv s) (i : Nat) :
    ioInv (multiplexwatcher_stop s i) := by
  unfold multiplexwatcher_stop
  by_cases hc : s.closed = true
  · rw [if_pos hc]; exact hs
  · rw [if_neg hc]
    cases hg : s._multiplex_watchers.get? i with
    | none => exact hs
    | some w =>
        exact ioInv_maybe_stop _ (ioInv_set s hs i w
          { w with callback := none, args := [], pass_events := false } hg rfl)

/-- `_multiplex_closed` preserves the io invariant. -/
lemma ioInv_multiplex_closed (s : IoWatcher) (hs : ioInv s) (i : Nat) :
    ioInv (_multiplex_closed s i) := by
  unfold _multiplex_closed
  by_cases hc : s.closed = true
  · rw [if_pos hc]; exact hs
  · rw [if_neg hc]
    by_cases hi : i < s._multiplex_watchers.length
    · rw [if_pos hi]
      by_cases hemp : (s._multiplex_watchers.eraseIdx i).isEmpty = true
      · rw [if_pos hemp]
        refine ⟨fun h => ?_, fun m hm => ?_⟩
        · simp [io_close, io_stop] at h
        · simp [io_close, io_stop] at hm
      · rw [if_neg hemp]
        apply ioInv_calc
        · intro m hm
          obtain ⟨me, hne⟩ := hs.2 m hm
          exact me.trans (hs.1 hne).symm
        · intro hnil
          rw [List.isEmpty_iff] at hemp
          exact hemp hnil
    · rw [if_neg hi]; exact hs

/-- Every multiplex-interface operation preserves the io invariant. -/
lemma ioInv_apply (s : IoWatcher) (hs : ioInv s) (op : IoOp) : ioInv (ioApply s op) := by
  cases op with
  | multiplexOp ev => exact ioInv_multiplex s hs ev
  | startOp i cb cbArgs pe => exact ioInv_multiplexwatcher_start s hs i cb cbArgs pe
  | stopOp i => exact ioInv_multiplexwatcher_stop s hs i
  | closeOp i => exact ioInv_multiplex_closed s hs i

/-- The io invariant is preserved by whole operation sequences. -/
lemma ioInv_run (ops : List IoOp) (s : IoWatcher) (hs : ioInv s) :
    ioInv (ioRun s ops) := by
  induction ops generalizing s with
  | nil => exact hs
  | cons op rest ih => exact ih (ioApply s op) (ioInv_apply s hs op)

/-- A freshly constructed io watcher satisfies the invariant. -/
lemma ioInv_init (fd ev : Nat) : ioInv (io_init fd ev) := by
  exact ⟨fun h => absurd rfl h, fun m hm => by simp [io_init] at hm⟩

/-- C1: for every IoWatcher and every sequence of multiplex-interface calls
(`multiplex`, and the sub-watchers' `start`/`stop`/`close`, a superset of the
claimed `multiplex`/`close` sequences), whenever the native poll handle is
armed, its armed event mask equals the bitwise union of the registered
sub-watchers' event masks. -/
theorem io_armed_mask_is_union_of_multiplex_masks (fd ev : Nat) (ops : List IoOp)
    (m : Nat) (h : (ioRun (io_init fd ev) ops).armed = some m) :
    m = unionMasks (ioRun (io_init fd ev) ops)._multiplex_watchers :=
  ((ioInv_run ops _ (ioInv_init fd ev)).2 m h).1

/-- Witness for C1: one multiplex plus one sub-watcher start on fd 7 leaves
the native handle armed with mask 1, the union of the sub-watcher masks. -/
theorem io_armed_mask_is_union_witness :
    (ioRun (io_init 7 0) [IoOp.multiplexOp 1, IoOp.startOp 0 5 [] false]).armed = some 1 ∧
    1 = unionMasks
      (ioRun (io_init 7 0) [IoOp.multiplexOp 1, IoOp.startOp 0 5 [] false])._multiplex_watchers :=
  ⟨by decide, io_armed_mask_is_union_of_multiplex_masks 7 0
    [IoOp.multiplexOp 1, IoOp.startOp 0 5 [] false] 1 (by decide)⟩

/-- C2: closing the last registered sub-watcher of a not-yet-closed IoWatcher
stops and closes the native handle synchronously: within the very same
`_multiplex_closed` call the watcher is disarmed, marked closed, and left with
no sub-watchers, before the call returns. -/
theorem multiplex_closed_last_closes_native_synchronously (s : IoWatcher)
    (h1 : s.closed = false) (h2 : s._multiplex_watchers.length = 1) :
    (_multiplex_closed s 0).closed = true ∧ (_multiplex_closed s 0).armed = none ∧
    (_multiplex_closed s 0)._multiplex_watchers = [] := by
  obtain ⟨w, hw⟩ := List.length_eq_one.mp h2
  unfold _multiplex_closed
  rw [hw]
  simp [h1, io_close, io_stop]

/-- Witness for C2: a concrete armed io watcher with one started sub-watcher
is synchronously closed when that sub-watcher is closed. -/
theorem multiplex_closed_last_witness :
    (_multiplex_closed
      (IoWatcher.mk 7 1 (some 1) [MultiplexWatcher.mk 1 (some 5) false []] false) 0).closed
        = true ∧
    (_multiplex_closed
      (IoWatcher.mk 7 1 (some 1) [MultiplexWatcher.mk 1 (some 5) false []] false) 0).armed
        = none ∧
    (_multiplex_closed
      (IoWatcher.mk 7 1 (some 1) [MultiplexWatcher.mk 1 (some 5) false []] false)
        0)._multiplex_watchers = [] :=
  multiplex_closed_last_closes_native_synchronously
    (IoWatcher.mk 7 1 (some 1) [MultiplexWatcher.mk 1 (some 5) false []] false) rfl rfl

/-- C3: `_watcher_ffi_close` is idempotent: the native close primitive is
invoked only on an initialized, not-already-closing handle; on such a handle
two consecutive calls produce exactly one native close invocation; on an
uninitialized or already-closing handle it is a no-op apart from nulling the
data pointer. -/
theorem watcher_ffi_close_idempotent (h : UvHandle) :
    ((_watcher_ffi_close h).2 ≠ 0 → h.typeSet = true ∧ h.closing = false) ∧
    (h.typeSet = true → h.closing = false →
      (_watcher_ffi_close h).2 = 1 ∧ (_watcher_ffi_close (_watcher_ffi_close h).1).2 = 0) ∧
    (¬(h.typeSet = true ∧ h.closing = false) →
      (_watcher_ffi_close h).2 = 0 ∧ (_watcher_ffi_close h).1.typeSet = h.typeSet ∧
      (_watcher_ffi_close h).1.closing = h.closing) := by
  obtain ⟨t, c, d⟩ := h
  cases t <;> cases c <;> simp [_watcher_ffi_close]

/-- Witness for C3: on a live handle, calling `_watcher_ffi_close` twice makes
exactly one native close invocation in total. -/
theorem watcher_ffi_close_idempotent_witness :
    (_watcher_ffi_close (UvHandle.mk true false false)).2 = 1 ∧
    (_watcher_ffi_close (_watcher_ffi_close (UvHandle.mk true false false)).1).2 = 0 :=
  (watcher_ffi_close_idempotent (UvHandle.mk true false false)).2.1 rfl rfl

/-- C4: `_io_callback` invokes exactly the started sub-watchers selected by
`send_event` — those whose mask intersects the delivered event bits, with a
negative status delivered regardless of mask — prepending the event bitmask
exactly when `pass_events` is set; with two sub-watchers of masks READ (1)
and WRITE (2), a READ event invokes only the READ callback. -/
theorem io_callback_dispatch_exact (events : Int) (l : List MultiplexWatcher) :
    _io_callback events l =
      (l.filter (fun w => w.callback.isSome && send_event events w.events)).map
        (fun w => { cb := w.callback.getD 0,
                    cbArgs := if w.pass_events then events :: w.args else w.args }) ∧
    (∀ mask : Nat, events < 0 → send_event events mask = true) ∧
    _io_callback 1 [MultiplexWatcher.mk 1 (some 10) false [],
      MultiplexWatcher.mk 2 (some 20) false []] = [Invocation.mk 10 []] := by
  refine ⟨?_, ?_, by decide⟩
  · induction l with
    | nil => rfl
    | cons w rest ih =>
        cases hcb : w.callback with
        | none => simp [_io_callback, hcb, List.filter_cons, ih]
        | some cb =>
            cases hse : send_event events w.events with
            | false => simp [_io_callback, hcb, hse, List.filter_cons, ih]
            | true =>
                cases hpe : w.pass_events <;>
                  simp [_io_callback, hcb, hse, List.filter_cons, ih, hpe]
  · intro mask hneg
    simp [send_event, hneg]

/-- Witness for C4: a negative status code selects a sub-watcher regardless of
its mask. -/
theorem io_callback_dispatch_witness : send_event (-11) 1 = true :=
  (io_callback_dispatch_exact (-11) []).2.1 1 (by decide)

/-- C5: starting a timer with a non-zero `after` or `repeat` below 0.001 s
clamps the stored duration to exactly 0.001 s and emits a warning-level
diagnostic, and the armed native duration of any non-zero `after` or
`repeat` is at least 1 ms, so a timer started with after = 0.0005 fires no
sooner than 1 ms of loop time. -/
theorem timer_clamps_submillisecond (after rep : ℚ) (cb : Nat) (cbArgs : List Int)
    (h : after ≠ 0) :
    (timer_watcher_ffi_init (timer_mk after rep))._after =
      (if after < 1/1000 then 1/1000 else after) ∧
    (after < 1/1000 → 1 ≤ (timer_watcher_ffi_init (timer_mk after rep)).warnings) ∧
    (timer_start (timer_mk after rep) cb cbArgs).calls =
      [TimerNativeCall.uv_timer_start
        (pyInt ((timer_watcher_ffi_init (timer_mk after rep))._after * 1000))
        (pyInt ((timer_watcher_ffi_init (timer_mk after rep))._repeat * 1000))] ∧
    1 ≤ pyInt ((timer_watcher_ffi_init (timer_mk after rep))._after * 1000) ∧
    (timer_watcher_ffi_init (timer_mk after rep))._repeat =
      (if rep ≠ 0 ∧ rep < 1/1000 then 1/1000 else rep) ∧
    (rep ≠ 0 → rep < 1/1000 →
      1 ≤ (timer_watcher_ffi_init (timer_mk after rep)).warnings) ∧
    (rep ≠ 0 → 1 ≤ pyInt ((timer_watcher_ffi_init (timer_mk after rep))._repeat * 1000)) := by
  have hproj : (timer_watcher_ffi_init (timer_mk after rep))._after =
      (clampDuration after).1 := rfl
  have hprojr : (timer_watcher_ffi_init (timer_mk after rep))._repeat =
      (clampDuration rep).1 := rfl
  have hw : (timer_watcher_ffi_init (timer_mk after rep)).warnings =
      0 + (clampDuration after).2 + (clampDuration rep).2 := rfl
  have hca : clampDuration after =
      (if after < 1/1000 then ((1 : ℚ)/1000, 1) else (after, 0)) := by
    simp only [clampDuration]
    by_cases h1 : after < 1/1000
    · rw [if_pos ⟨h, h1⟩, if_pos h1]
    · rw [if_neg (fun hc => h1 hc.2), if_neg h1]
  refine ⟨?_, ?_, rfl, ?_, ?_, ?_, ?_⟩
  · rw [hproj, hca]
    by_cases h1 : after < 1/1000
    · rw [if_pos h1, if_pos h1]
    · rw [if_neg h1, if_neg h1]
  · intro h1
    have hc1 : clampDuration after = ((1 : ℚ)/1000, 1) := by rw [hca, if_pos h1]
    rw [hw, hc1]
    show 1 ≤ 0 + 1 + (clampDuration rep).2
    omega
  · rw [hproj, hca]
    by_cases h1 : after < 1/1000
    · rw [if_pos h1]
      show 1 ≤ pyInt ((1 : ℚ)/1000 * 1000)
      have he : ((1 : ℚ)/1000) * 1000 = 1 := by norm_num
      rw [he]
      simp only [pyInt]
      rw [if_pos (by norm_num : (0:ℚ) ≤ 1)]
      simp [Int.floor_one]
    · rw [if_neg h1]
      show 1 ≤ pyInt (after * 1000)
      push_neg at h1
      simp only [pyInt]
      rw [if_pos (by linarith : (0:ℚ) ≤ after * 1000)]
      exact Int.le_floor.mpr (by push_cast; linarith)
  · rw [hprojr]
    simp only [clampDuration]
    by_cases h2 : rep ≠ 0 ∧ rep < 1/1000
    · rw [if_pos h2, if_pos h2]
    · rw [if_neg h2, if_neg h2]
  · intro hr0 hr1
    have hc2 : clampDuration rep = ((1 : ℚ)/1000, 1) := by
      simp only [clampDuration]
      rw [if_pos ⟨hr0, hr1⟩]
    rw [hw, hc2]
    show 1 ≤ 0 + (clampDuration after).2 + 1
    omega
  · intro hr0
    rw [hprojr]
    simp only [clampDuration]
    by_cases hr1 : rep < 1/1000
    · rw [if_pos ⟨hr0, hr1⟩]
      show 1 ≤ pyInt ((1 : ℚ)/1000 * 1000)
      have he : ((1 : ℚ)/1000) * 1000 = 1 := by norm_num
      rw [he]
      simp only [pyInt]
      rw [if_pos (by norm_num : (0:ℚ) ≤ 1)]
      simp [Int.floor_one]
    · rw [if_neg (fun hc => hr1 hc.2)]
      show 1 ≤ pyInt (rep * 1000)
      push_neg at hr1
      simp only [pyInt]
      rw [if_pos (by linarith : (0:ℚ) ≤ rep * 1000)]
      exact Int.le_floor.mpr (by push_cast; linarith)

/-- Witness for C5: after = 0.0005 and repeat = 0.00025 are each clamped to
0.001, each clamp warns, and both armed native durations are at least 1 ms. -/
theorem timer_clamps_submillisecond_witness :
    (timer_watcher_ffi_init (timer_mk (1/2000) (1/4000)))._after = 1/1000 ∧
    (timer_watcher_ffi_init (timer_mk (1/2000) (1/4000)))._repeat = 1/1000 ∧
    1 ≤ (timer_watcher_ffi_init (timer_mk (1/2000) (1/4000))).warnings ∧
    1 ≤ pyInt ((timer_watcher_ffi_init (timer_mk (1/2000) (1/4000)))._after * 1000) ∧
    1 ≤ pyInt ((timer_watcher_ffi_init (timer_mk (1/2000) (1/4000)))._repeat * 1000) := by
  have h := timer_clamps_submillisecond (1/2000) (1/4000) 3 [] (by norm_num)
  refine ⟨?_, ?_, h.2.1 (by norm_num), h.2.2.2.1, h.2.2.2.2.2.2 (by norm_num)⟩
  · rw [h.1, if_pos (by norm_num : (1/2000 : ℚ) < 1/1000)]
  · rw [h.2.2.2.2.1,
      if_pos (⟨by norm_num, by norm_num⟩ : (1/4000 : ℚ) ≠ 0 ∧ (1/4000 : ℚ) < 1/1000)]

/-- The timer clamp leaves the native-call log and the `_again` flag alone. -/
lemma timer_watcher_ffi_init_preserves (s : TimerWatcher) :
    (timer_watcher_ffi_init s).calls = s.calls ∧
    (timer_watcher_ffi_init s)._again = s._again :=
  ⟨rfl, rfl⟩

/-- C6: `again` on a never-started timer is literally a `start` with the same
arguments; on a started timer it requests the native restart-from-now
behavior (`uv_timer_again`) and restores the `_again` flag. -/
theorem timer_again_start_equivalence (s : TimerWatcher) (cb : Nat) (cbArgs : List Int) :
    (s.active = false → timer_again s cb cbArgs = timer_start s cb cbArgs) ∧
    (s.active = true → (timer_again s cb cbArgs).calls =
        s.calls ++ [TimerNativeCall.uv_timer_again] ∧
      (timer_again s cb cbArgs)._again = false) := by
  constructor
  · intro h
    simp [timer_again, h]
  · intro h
    have key : ∀ t : TimerWatcher, t._again = true →
        (timer_start t cb cbArgs).calls = t.calls ++ [TimerNativeCall.uv_timer_again] := by
      intro t ht
      by_cases hi : t.initialized
      · simp [timer_start, timer_watcher_ffi_start, hi, ht]
      · have hp := timer_watcher_ffi_init_preserves t
        simp [timer_start, timer_watcher_ffi_start, hi, hp.1, hp.2, ht]
    unfold timer_again
    rw [if_neg (by simp [h])]
    exact ⟨key { s with _again := true } rfl, rfl⟩

/-- Witness for C6: `again` on a freshly constructed (never started) timer
produces exactly the state `start` produces. -/
theorem timer_again_start_witness :
    timer_again (timer_mk 1 0) 3 [] = timer_start (timer_mk 1 0) 3 [] :=
  (timer_again_start_equivalence (timer_mk 1 0) 3 []).1 rfl

/-- C7: the wrapper around every native entry point: a negative result raises
`UVFuncallError` whose message is the native error name, the native error
message, and the failing call's (stripped) arguments; a non-negative or void
result is returned unchanged without raising. -/
theorem libuv_error_wrapper_spec (errName errMsg : ℤ → String)
    (reprOf : List UvArg → String) (kwargsRepr : String)
    (f : List UvArg → Option ℤ) (args : List UvArg) :
    (∀ res, f (stripWatcherArg args) = some res → res < 0 →
      libuv_error_wrap errName errMsg reprOf kwargsRepr f args =
        Except.error (errName res ++ spaceSep ++ errMsg res ++ argsTag ++
          reprOf (stripWatcherArg args) ++ kwargsTag ++ kwargsRepr)) ∧
    (∀ res, f (stripWatcherArg args) = some res → 0 ≤ res →
      libuv_error_wrap errName errMsg reprOf kwargsRepr f args =
        Except.ok (some res)) ∧
    (f (stripWatcherArg args) = none →
      libuv_error_wrap errName errMsg reprOf kwargsRepr f args = Except.ok none) := by
  refine ⟨?_, ?_, ?_⟩
  · intro res hres hneg
    simp [libuv_error_wrap, hres, hneg]
  · intro res hres hnn
    simp [libuv_error_wrap, hres, not_lt.mpr hnn]
  · intro hnone
    simp [libuv_error_wrap, hnone]

/-- Sample native error name for the C7 witness. -/
def sampleErrName : String := "EAGAIN"

/-- Sample native error message for the C7 witness. -/
def sampleErrMsg : String := "resource temporarily unavailable"

/-- Sample argument repr for the C7 witness. -/
def sampleArgsRepr : String := "(3,)"

/-- Sample kwargs repr for the C7 witness. -/
def sampleKwargsRepr : String := "kwargs"

/-- Witness for C7: a native call returning -1 after stripping the leading
watcher argument raises with the name, message and arguments in the error. -/
theorem libuv_error_wrapper_witness :
    libuv_error_wrap (fun _ => sampleErrName) (fun _ => sampleErrMsg)
      (fun _ => sampleArgsRepr) sampleKwargsRepr (fun _ => some (-1))
      [UvArg.watcherArg, UvArg.intArg 3] =
    Except.error (sampleErrName ++ spaceSep ++ sampleErrMsg ++ argsTag ++
      sampleArgsRepr ++ kwargsTag ++ sampleKwargsRepr) :=
  (libuv_error_wrapper_spec (fun _ => sampleErrName) (fun _ => sampleErrMsg)
    (fun _ => sampleArgsRepr) sampleKwargsRepr (fun _ => some (-1))
    [UvArg.watcherArg, UvArg.intArg 3]).1 (-1) rfl (by decide)

/-- C8: `async_.send` on a closing native handle raises (fails loudly) and
does not invoke the native `uv_async_send`; on a live handle it invokes the
native send exactly once. -/
theorem async_send_closing_raises (s : AsyncWatcher) :
    (s.closing = true → (send s).1 = some closingHandleMsg ∧
      (send s).2.sends = s.sends) ∧
    (s.closing = false → (send s).1 = none ∧ (send s).2.sends = s.sends + 1) := by
  obtain ⟨c, n⟩ := s
  cases c <;> simp [send]

/-- Witness for C8: sending on a closing handle raises and performs no native
send. -/
theorem async_send_closing_witness :
    (send (AsyncWatcher.mk true 0)).1 = some closingHandleMsg ∧
    (send (AsyncWatcher.mk true 0)).2.sends = 0 :=
  (async_send_closing_raises (AsyncWatcher.mk true 0)).1 rfl

/-- C9: setting `ref` to False on a watcher without a native handle is a
no-op that raises nothing, leaves `ref` reading as None, and does not affect
a subsequent start. -/
theorem unref_uninitialized_noop (s : RefWatcher) (h : s._watcher = none) :
    _set_ref s false = s ∧ _get_ref (_set_ref s false) = none ∧
    ref_watcher_start (_set_ref s false) = ref_watcher_start s := by
  have h1 : _set_ref s false = s := by
    simp [_set_ref, _watcher_ffi_unref, h]
  refine ⟨h1, ?_, by rw [h1]⟩
  rw [h1]
  simp [_get_ref, h]

/-- Witness for C9: unref on a concrete never-initialized watcher. -/
theorem unref_uninitialized_witness :
    _set_ref (RefWatcher.mk none false) false = RefWatcher.mk none false ∧
    _get_ref (_set_ref (RefWatcher.mk none false) false) = none ∧
    ref_watcher_start (_set_ref (RefWatcher.mk none false) false) =
      ref_watcher_start (RefWatcher.mk none false) :=
  unref_uninitialized_noop (RefWatcher.mk none false) rfl

/-- C10: `_SimulatedWithAsyncMixin.__init__` creates the owned async watcher
first, and when the remainder of initialization raises, the async watcher is
closed before the exception propagates, so a failed construction balances
every async creation with a close. -/
theorem simulated_init_no_leak (restRaises : Bool) :
    (_SimulatedWithAsyncMixin_init restRaises).1.head? = some SimEvent.createAsync ∧
    ((_SimulatedWithAsyncMixin_init restRaises).2.isSome = true →
      (_SimulatedWithAsyncMixin_init restRaises).1.count SimEvent.closeAsync =
        (_SimulatedWithAsyncMixin_init restRaises).1.count SimEvent.createAsync) ∧
    ((_SimulatedWithAsyncMixin_init restRaises).2 = none →
      (_SimulatedWithAsyncMixin_init restRaises).1.count SimEvent.closeAsync = 0) := by
  cases restRaises <;> refine ⟨by decide, ?_, ?_⟩ <;> intro h <;> first
    | decide
    | simp [_SimulatedWithAsyncMixin_init] at h

/-- Witness for C10: a raising construction closes the async watcher it
created. -/
theorem simulated_init_no_leak_witness :
    (_SimulatedWithAsyncMixin_init true).1.count SimEvent.closeAsync =
      (_SimulatedWithAsyncMixin_init true).1.count SimEvent.createAsync :=
  (simulated_init_no_leak true).2.1 rfl

end Gevent
